import Mathlib

/-!
Verification of the SlugSight telemetry ground station (`gds/`).

This file gives a shallow embedding of the parts of the code base that the
specification's testable properties are about:

* `telemetry_parser.py` — `TelemetryParser.parse`, `_sanitize_label`,
  `_validate_ranges`, the rounding table;
* `data_logger.py` — `DataLogger._format_floats` and `DataLogger.close`;
* `slugsight_gds.py` / `advanced_web_gui.py` — the subscriber fan-out step of
  `serial_reader_thread` and the `packet_count > 0` logging guard.

Numeric values are modelled as exact rationals (`Rat`).  Python's `float(...)`
coercion of a CSV token is modelled by `parseFloat?` on the token's characters
(sign, digits, optional fractional part; failure is `none`), `int(...)`
truncation by `ratTrunc`, and `round(x, p)` by `pyRound` (round-half-to-even at
`p` decimal digits).  Strings are processed as explicit character lists so that
every definition evaluates by kernel reduction.
-/

/-! ### Character-level helpers (Python `str.strip`, `str.split(',')`) -/

/-- ASCII whitespace stripped by Python's `str.strip()`. -/
def isSpaceChar (c : Char) : Bool :=
  c = ' ' || c = '\t' || c = '\n' || c = '\r' || c = '\x0b' || c = '\x0c'

/-- Python `raw_data.strip()` on the character list of the line. -/
def trimChars (cs : List Char) : List Char :=
  ((cs.dropWhile isSpaceChar).reverse.dropWhile isSpaceChar).reverse

/-- Worker for `splitComma`; `acc` is the current field, reversed. -/
def splitAux : List Char → List Char → List (List Char)
  | [], acc => [acc.reverse]
  | c :: rest, acc =>
    if c = ',' then acc.reverse :: splitAux rest [] else splitAux rest (c :: acc)

/-- Python `s.split(',')`: the comma-separated fields of a line. -/
def splitComma (cs : List Char) : List (List Char) := splitAux cs []

/-! ### Numeric coercions (`float`, `int`, `round`) -/

/-- Value of a digit string (most significant first). -/
def digitsToNat (cs : List Char) : Nat := cs.foldl (fun n c => 10 * n + (c.toNat - 48)) 0

/-- Unsigned part of Python `float(tok)`: digits with an optional single
fractional point.  Anything else (letters, a second point, empty) fails. -/
def parseUnsigned? (cs : List Char) : Option Rat :=
  let intPart := cs.takeWhile Char.isDigit
  let rest := cs.dropWhile Char.isDigit
  match rest with
  | [] => if intPart.isEmpty then none else some (mkRat (digitsToNat intPart) 1)
  | '.' :: frac =>
    if frac.all Char.isDigit && !(intPart.isEmpty && frac.isEmpty) then
      some (mkRat (digitsToNat intPart * 10 ^ frac.length + digitsToNat frac) (10 ^ frac.length))
    else none
  | _ => none

/-- Python `float(tok)` on a CSV token: strips whitespace, handles a sign,
returns `none` where `float` raises `ValueError`. -/
def parseFloat? (cs : List Char) : Option Rat :=
  let cs := trimChars cs
  match cs with
  | '-' :: rest => (parseUnsigned? rest).map (fun q => -q)
  | '+' :: rest => parseUnsigned? rest
  | _ => parseUnsigned? cs

/-- Python `int(x)` on a float: truncation toward zero. -/
def ratTrunc (x : Rat) : Int := Int.tdiv x.num (x.den : Int)

/-- Nearest integer to `x`, ties to the even integer (Python's `round`). -/
def roundHalfEven (x : Rat) : Int :=
  let f : Int := Int.fdiv x.num (x.den : Int)
  let rem : Int := x.num - f * (x.den : Int)
  if 2 * rem < (x.den : Int) then f
  else if ((x.den : Int)) < 2 * rem then f + 1
  else if f % 2 = 0 then f else f + 1

/-- Python `round(x, p)`: round to `p` decimal digits, ties to even. -/
def pyRound (x : Rat) (p : Nat) : Rat :=
  Rat.divInt (roundHalfEven (Rat.divInt (x.num * ((10 ^ p : Nat) : Int)) (x.den : Int)))
    ((10 ^ p : Nat) : Int)

/-! ### `TelemetryParser._sanitize_label` -/

/-- One character of `_sanitize_label`: lower-case it, keep `[a-z0-9]`,
replace anything else by an underscore. -/
def sanitizeChar (c : Char) : Char :=
  let lc := c.toLower
  if ('a' ≤ lc && lc ≤ 'z') || ('0' ≤ lc && lc ≤ '9') then lc else '_'

/-- Collapse runs of underscores to a single underscore (the effect of
replacing each maximal run of non-alphanumerics by one `_`). -/
def collapseAux : Bool → List Char → List Char
  | _, [] => []
  | prevU, c :: rest =>
    if c = '_' then
      if prevU then collapseAux true rest else '_' :: collapseAux true rest
    else c :: collapseAux false rest

/-- Python `s.strip('_')`. -/
def stripUnderscores (cs : List Char) : List Char :=
  ((cs.dropWhile (· == '_')).reverse.dropWhile (· == '_')).reverse

/-- `TelemetryParser._sanitize_label`: `'GPS Lat' ↦ 'gps_lat'` etc. -/
def sanitizeLabel (label : String) : String :=
  String.mk (stripUnderscores (collapseAux false (label.toList.map sanitizeChar)))

/-! ### Data model of a parsed record -/

/-- A value stored in the parsed telemetry dictionary: Python float, int or
string entries. -/
inductive Value where
  | vFloat (q : Rat)
  | vInt (n : Int)
  | vStr (s : String)
deriving DecidableEq

/-- `TelemetryParser.DATA_LABELS`: the 18-point data contract, in order. -/
def DATA_LABELS : List String :=
  ["Pitch", "Roll", "Yaw",
   "Altitude", "Velocity",
   "Accel X", "Accel Y", "Accel Z",
   "Pressure Pa", "IMU Temp C",
   "GPS Fix", "GPS Sats",
   "GPS Lat", "GPS Lon", "GPS Alt m", "GPS Speed m/s",
   "VBat", "RSSI"]

/-- The `validation` section of the parser configuration.  A range entry is
`(field, (min, max))` as in the Python config dictionary. -/
structure ValidationConfig where
  enable_range_check : Bool := false
  ranges : List (String × Rat × Rat) := []
deriving DecidableEq

/-- Telemetry parser configuration. -/
structure Config where
  validation : ValidationConfig := {}
deriving DecidableEq

/-- Default configuration: `TelemetryParser()` with no config dictionary. -/
def defaultConfig : Config := {}

/-- Mutable parser state: `self.packet_count`, initialised to `0`. -/
structure ParserState where
  packet_count : Nat := 0
deriving DecidableEq

/-- The per-channel rounding precision table built in `parse`
(`rounding_map`), keyed by sanitized label exactly as in the source. -/
def roundingMap : List (String × Nat) :=
  [(sanitizeLabel "GPS Lat", 6),
   (sanitizeLabel "GPS Lon", 6),
   (sanitizeLabel "GPS Alt m", 2),
   (sanitizeLabel "VBat", 3),
   (sanitizeLabel "IMU Temp C", 2),
   (sanitizeLabel "Pressure Pa", 2),
   (sanitizeLabel "Altitude", 2),
   (sanitizeLabel "Velocity", 2)]

/-- Decode one positional CSV token for a given label: `int(float(tok))` for
the two integer channels, `float(tok)` otherwise; a failed coercion yields the
`0.0` default (the `except (ValueError, IndexError)` branch). -/
def parseField (label : String) (tok : List Char) : Value :=
  match parseFloat? tok with
  | none => .vFloat 0
  | some q =>
    if label = "GPS Fix" || label = "GPS Sats" then .vInt (ratTrunc q) else .vFloat q

/-- Apply the rounding table to one dictionary entry: floats whose key is in
`rounding_map` are rounded to the configured precision, everything else kept. -/
def roundValue (key : String) (v : Value) : Value :=
  match roundingMap.lookup key, v with
  | some p, .vFloat q => .vFloat (pyRound q p)
  | _, _ => v

/-- The rounding loop of `parse` over the whole telemetry dictionary. -/
def applyRounding (t : List (String × Value)) : List (String × Value) :=
  t.map (fun kv => (kv.1, roundValue kv.1 kv.2))

/-- The telemetry dictionary built by `parse` before rounding: capture
timestamp, current `packet_count`, then the 18 channels keyed by their
sanitized labels in schema order. -/
def buildTelemetry (ts : String) (count : Nat) (values : List (List Char)) :
    List (String × Value) :=
  ("timestamp", Value.vStr ts) :: ("packet_count", Value.vInt count) ::
    (DATA_LABELS.zip values).map (fun p => (sanitizeLabel p.1, parseField p.1 p.2))

/-- Numeric view of a dictionary value; `none` for strings, whose comparison
against a numeric bound raises `TypeError` in Python. -/
def numOf : Value → Option Rat
  | .vFloat q => some q
  | .vInt n => some (mkRat n 1)
  | .vStr _ => none

/-- `_validate_ranges`' field lookup: the config key itself first, then its
sanitized form. -/
def lookupField (t : List (String × Value)) (field : String) : Option Value :=
  match t.lookup field with
  | some v => some v
  | none => t.lookup (sanitizeLabel field)

/-- `min_val <= value <= max_val` on the numeric view; a non-numeric value
raises `TypeError` in Python, making the record invalid. -/
def numInBounds (lo hi : Rat) : Option Rat → Bool
  | none => false
  | some q => decide (lo ≤ q) && decide (q ≤ hi)

/-- The body of one `_validate_ranges` iteration on the looked-up value: a
missing field (`None`) is skipped. -/
def boundsOk (lo hi : Rat) : Option Value → Bool
  | none => true
  | some v => numInBounds lo hi (numOf v)

/-- One iteration of `_validate_ranges`: a missing field is skipped, a
non-numeric value is invalid (`TypeError` branch), a numeric value must lie in
`[min, max]`. -/
def rangeOk (t : List (String × Value)) (entry : String × Rat × Rat) : Bool :=
  boundsOk entry.2.1 entry.2.2 (lookupField t entry.1)

/-- `TelemetryParser._validate_ranges`. -/
def validateRanges (cfg : Config) (t : List (String × Value)) : Bool :=
  cfg.validation.ranges.all (rangeOk t)

/-- The comma-separated fields of a stripped line (`values` in `parse`). -/
def fieldsOf (raw : String) : List (List Char) := splitComma (trimChars raw.toList)

/-- `TelemetryParser.parse` on a decoded line.  Returns the optional record
together with the updated parser state.  The wall-clock timestamp
(`datetime.now().isoformat()`) is passed in as `ts`.  Mirrors the source:
strip; reject empty; split on commas; reject unless exactly
`len(DATA_LABELS)` fields; build the dictionary with per-field defaults;
apply the rounding table; optionally range-validate (rejecting the whole
record); on acceptance increment `packet_count`. -/
def TelemetryParser.parse (cfg : Config) (ts : String) (st : ParserState) (raw : String) :
    Option (List (String × Value)) × ParserState :=
  if (trimChars raw.toList).isEmpty then (none, st)
  else if (fieldsOf raw).length ≠ DATA_LABELS.length then (none, st)
  else if cfg.validation.enable_range_check &&
      !(validateRanges cfg (applyRounding (buildTelemetry ts st.packet_count (fieldsOf raw)))) then
    (none, st)
  else
    (some (applyRounding (buildTelemetry ts st.packet_count (fieldsOf raw))),
     ⟨st.packet_count + 1⟩)

/-- The value a channel of an accepted record ends up with, as a function of
its label and its positional token: positional decode followed by the
rounding table. -/
def channelValue (label : String) (tok : List Char) : Value :=
  roundValue (sanitizeLabel label) (parseField label tok)

/-! ### `DataLogger` (`data_logger.py`) -/

/-- `DataLogger._format_floats` on one value: floats are rounded to the
configured `float_precision` (default 6), everything else kept. -/
def formatValue (precision : Nat) : Value → Value
  | .vFloat q => .vFloat (pyRound q precision)
  | v => v

/-- `DataLogger._format_floats`, applied to a full record immediately before
the CSV row is written. -/
def formatFloats (precision : Nat) (t : List (String × Value)) : List (String × Value) :=
  t.map (fun kv => (kv.1, formatValue precision kv.2))

/-- The state of the underlying CSV file object.  Python file objects stay
truthy after being closed; only `flush()` on a closed file raises. -/
structure FileHandle where
  closed : Bool
deriving DecidableEq

/-- `DataLogger` state relevant to `close()`: the `self.csv_file` handle,
`None` before `_initialize_file` runs. -/
structure LoggerState where
  csv_file : Option FileHandle
deriving DecidableEq

/-- `file.flush()`: raises `ValueError` on a closed file. -/
def fileFlush (f : FileHandle) : Except String FileHandle :=
  if f.closed then .error "I/O operation on closed file." else .ok f

/-- `file.close()`: closes the file; closing a closed file is a no-op. -/
def fileClose (_ : FileHandle) : Except String FileHandle :=
  .ok { closed := true }

/-- `DataLogger.close`: `if self.csv_file: flush; close` — the handle is
*not* cleared afterwards. -/
def DataLogger.close (s : LoggerState) : Except String LoggerState :=
  match s.csv_file with
  | none => .ok s
  | some f =>
    match fileFlush f with
    | .error e => .error e
    | .ok f1 =>
      match fileClose f1 with
      | .error e => .error e
      | .ok f2 => .ok { csv_file := some f2 }

/-! ### Ingestion loop and fan-out (`slugsight_gds.py` / `advanced_web_gui.py`) -/

/-- The logging guard of `slugsight_gds.serial_reader_thread`:
`parsed_telemetry.get('packet_count', 0) > 0`. -/
def shouldLog (t : List (String × Value)) : Bool :=
  match t.lookup "packet_count" with
  | some (.vInt n) => decide (0 < n)
  | _ => false

/-- The `dead_clients` list collected while pushing one payload to a copy of
the registry: every subscriber whose `send` failed. -/
def deadAfter {Client : Type} (clients : List Client)
    (sendOk : Client → String → Bool) (payload : String) : List Client :=
  clients.filter (fun c => !(sendOk c payload))

/-- Removal of the dead subscribers from the registry
(`global_clients.remove(client)` for each, guarded by membership). -/
def pruneDead {Client : Type} [DecidableEq Client]
    (registry dead : List Client) : List Client :=
  dead.foldl (fun reg c => reg.erase c) registry

/-- One broadcast iteration of `serial_reader_thread`: first component is the
list of subscribers whose `send(payload)` succeeded (they received the
envelope), second is the registry after the dead ones were removed. -/
def broadcastStep {Client : Type} [DecidableEq Client] (registry : List Client)
    (sendOk : Client → String → Bool) (payload : String) : List Client × List Client :=
  (registry.filter (fun c => sendOk c payload),
   pruneDead registry (deadAfter registry sendOk payload))

/-! ### Concrete test vectors -/

/-- The end-to-end test line from the spec and `telemetry_parser.py`'s own
example block. -/
def testLine : String :=
  "5.2,-3.1,45.8,125.5,15.3,0.5,0.2,9.8,101325.0,22.5,1,8,37.123456,-122.345678,130.2,12.5,3.85,-95"

/-- `testLine` with its trailing RSSI field removed: 17 fields. -/
def testLine17 : String :=
  "5.2,-3.1,45.8,125.5,15.3,0.5,0.2,9.8,101325.0,22.5,1,8,37.123456,-122.345678,130.2,12.5,3.85"

/-- A receiver line of the "waiting for GPS fix" shape, with a trailing RSSI. -/
def waitingLine : String := "Waiting for GPS fix,-95"

/-- `testLine` with a non-numeric altitude token (index 3). -/
def badFieldLine : String :=
  "5.2,-3.1,45.8,bogus,15.3,0.5,0.2,9.8,101325.0,22.5,1,8,37.123456,-122.345678,130.2,12.5,3.85,-95"

/-- `testLine` with an out-of-range altitude of 60000 m. -/
def highAltLine : String :=
  "5.2,-3.1,45.8,60000.0,15.3,0.5,0.2,9.8,101325.0,22.5,1,8,37.123456,-122.345678,130.2,12.5,3.85,-95"

/-! ### Lookup lemmas for the record dictionary -/

/-- Looking a key up in a list of pairs mapped by a key-preserving function. -/
theorem lookup_pairMap (g : String → Value → Value) (t : List (String × Value)) (k : String) :
    (t.map (fun kv => (kv.1, g kv.1 kv.2))).lookup k = (t.lookup k).map (g k) := by
  induction t with
  | nil => rfl
  | cons kv tl ih =>
    cases kv with
    | mk k' v =>
      simp only [List.map_cons, List.lookup_cons]
      cases h : k == k' with
      | true =>
        have hk : k = k' := eq_of_beq h
        subst hk
        simp [h]
      | false => simp [h, ih]

/-- `applyRounding` transforms every looked-up value by `roundValue`. -/
theorem lookup_applyRounding (t : List (String × Value)) (k : String) :
    (applyRounding t).lookup k = (t.lookup k).map (roundValue k) :=
  lookup_pairMap roundValue t k

/-- `formatFloats` transforms every looked-up value by `formatValue`. -/
theorem lookup_formatFloats (p : Nat) (t : List (String × Value)) (k : String) :
    (formatFloats p t).lookup k = (t.lookup k).map (formatValue p) :=
  lookup_pairMap (fun _ v => formatValue p v) t k

/-- A successful lookup exhibits a member of the association list. -/
theorem mem_of_lookup_eq_some {α β : Type} [BEq α] [LawfulBEq α] {l : List (α × β)} {k : α}
    {b : β} (h : l.lookup k = some b) : (k, b) ∈ l := by
  obtain ⟨l₁, l₂, rfl, -⟩ := List.lookup_eq_some_iff.mp h
  simp

/-- Positional lookup into the mapped zip of labels and tokens: with distinct
sanitized keys, the `i`-th channel key finds the `i`-th token's value. -/
theorem lookup_fields_pos (labels : List String) :
    ∀ (vals : List (List Char)) (i : Nat), i < labels.length → labels.length ≤ vals.length →
      (labels.map sanitizeLabel).Nodup →
      ((labels.zip vals).map (fun p => (sanitizeLabel p.1, parseField p.1 p.2))).lookup
          (sanitizeLabel (labels.getD i "")) =
        some (parseField (labels.getD i "") (vals.getD i [])) := by
  induction labels with
  | nil => intro vals i hi; exact absurd hi (Nat.not_lt_zero i)
  | cons l ls ih =>
    intro vals i hi hlen hnd
    cases vals with
    | nil => simp at hlen
    | cons v vs =>
      cases i with
      | zero => simp
      | succ j =>
        have hj : j < ls.length := Nat.lt_of_succ_lt_succ hi
        have hlen' : ls.length ≤ vs.length := Nat.le_of_succ_le_succ hlen
        have hnd' : (∀ x ∈ ls, ¬sanitizeLabel x = sanitizeLabel l) ∧
            (ls.map sanitizeLabel).Nodup := by simpa using hnd
        have hmemd : ls.getD j "" ∈ ls := by
          have hg : ls.getD j "" = ls[j] := List.getD_eq_getElem ls "" hj
          rw [hg]
          exact List.getElem_mem hj
        have hne : (sanitizeLabel (ls.getD j "") == sanitizeLabel l) = false := by
          simpa using hnd'.1 _ hmemd
        show List.lookup (sanitizeLabel (ls.getD j ""))
            (((l, v) :: ls.zip vs).map (fun p => (sanitizeLabel p.1, parseField p.1 p.2))) =
          some (parseField (ls.getD j "") (vs.getD j []))
        simp only [List.map_cons, List.lookup_cons, hne]
        exact ih vs j hj hlen' hnd'.2

/-- A key that is not among the sanitized labels finds nothing in the mapped
zip of labels and tokens. -/
theorem lookup_fields_none (labels : List String) :
    ∀ (vals : List (List Char)) (k : String), k ∉ labels.map sanitizeLabel →
      ((labels.zip vals).map (fun p => (sanitizeLabel p.1, parseField p.1 p.2))).lookup k =
        none := by
  induction labels with
  | nil => intro vals k _; rfl
  | cons l ls ih =>
    intro vals k hk
    cases vals with
    | nil => rfl
    | cons v vs =>
      have h0 : (k == sanitizeLabel l) = false := by
        have : k ≠ sanitizeLabel l := fun e => hk (by simp [e])
        simpa using this
      have h1 : k ∉ ls.map sanitizeLabel := fun h => hk (by simp [h])
      simpa [List.lookup_cons, h0] using ih vs k h1

/-- Channel keys never collide with the two bookkeeping keys. -/
theorem channel_keys_fresh : ∀ j, j < DATA_LABELS.length →
    ((sanitizeLabel (DATA_LABELS.getD j "") == "timestamp") = false ∧
     (sanitizeLabel (DATA_LABELS.getD j "") == "packet_count") = false) := by decide

/-- The sanitized channel keys are pairwise distinct. -/
theorem sanitized_labels_nodup : (DATA_LABELS.map sanitizeLabel).Nodup := by decide

/-- Looking up the `i`-th channel of the record built from a full token list
yields the decoded-and-rounded `i`-th token. -/
theorem lookup_record_channel (ts : String) (count : Nat) (vals : List (List Char))
    (hlen : vals.length = DATA_LABELS.length) (i : Nat) (hi : i < DATA_LABELS.length) :
    (applyRounding (buildTelemetry ts count vals)).lookup
        (sanitizeLabel (DATA_LABELS.getD i "")) =
      some (channelValue (DATA_LABELS.getD i "") (vals.getD i [])) := by
  have hf := channel_keys_fresh i hi
  have hpos := lookup_fields_pos DATA_LABELS vals i hi (Nat.le_of_eq hlen.symm)
    sanitized_labels_nodup
  rw [lookup_applyRounding]
  simp only [buildTelemetry, List.lookup_cons, hf.1, hf.2, hpos, Option.map_some']
  rfl

/-- The `packet_count` entry of a built record is the pre-increment counter. -/
theorem lookup_record_packet_count (ts : String) (count : Nat) (vals : List (List Char)) :
    (applyRounding (buildTelemetry ts count vals)).lookup "packet_count" =
      some (Value.vInt count) := by
  have h1 : (("packet_count" : String) == "timestamp") = false := by decide
  have h2 : (("packet_count" : String) == "packet_count") = true := by decide
  have h3 : roundValue "packet_count" (Value.vInt count) = Value.vInt count := by
    have h4 : roundingMap.lookup "packet_count" = none := by decide
    unfold roundValue
    rw [h4]
  rw [lookup_applyRounding]
  simp only [buildTelemetry, List.lookup_cons, h1, h2, Option.map_some', h3]

/-! ### Rounding lemmas -/

/-- `roundHalfEven` is the identity on integers. -/
theorem roundHalfEven_intCast (m : Int) : roundHalfEven ((m : Rat)) = m := by
  unfold roundHalfEven
  norm_num [Rat.intCast_num, Rat.intCast_den, Int.fdiv_one]

/-- A rational whose denominator divides `10^p` is already at precision `p`,
so Python's `round(x, p)` returns it unchanged. -/
theorem pyRound_eq_self {x : Rat} {p : Nat} (h : ((x.den : Nat) : Int) ∣ ((10 ^ p : Nat) : Int)) :
    pyRound x p = x := by
  obtain ⟨k, hk⟩ := h
  have hden : ((x.den : Nat) : Int) ≠ 0 := Int.natCast_ne_zero.mpr x.den_nz
  have hpow : ((10 ^ p : Nat) : Int) ≠ 0 := by positivity
  have hk0 : k ≠ 0 := by
    rintro rfl
    rw [mul_zero] at hk
    exact hpow hk
  unfold pyRound
  have h1 : x.num * ((10 ^ p : Nat) : Int) = (x.num * k) * (x.den : Int) := by
    rw [hk]; ring
  rw [h1]
  have h2 : Rat.divInt ((x.num * k) * (x.den : Int)) (x.den : Int) = ((x.num * k : Int) : Rat) := by
    have h3 := Rat.divInt_mul_right (n := x.num * k) (d := 1) (a := (x.den : Int)) hden
    rw [one_mul] at h3
    rw [h3, Rat.divInt_one]
  rw [h2, roundHalfEven_intCast, hk, Rat.divInt_mul_right hk0]
  exact Rat.divInt_self x

/-- The denominator of `round(x, p)` divides `10^p`. -/
theorem den_pyRound_dvd (x : Rat) (p : Nat) :
    (((pyRound x p).den : Nat) : Int) ∣ ((10 ^ p : Nat) : Int) := by
  unfold pyRound
  exact Rat.den_dvd _ _

/-- Rounding at a wider precision leaves an already-rounded value unchanged. -/
theorem pyRound_pyRound {x : Rat} {p q : Nat} (hpq : p ≤ q) :
    pyRound (pyRound x p) q = pyRound x p := by
  apply pyRound_eq_self
  refine dvd_trans (den_pyRound_dvd x p) ?_
  have : ((10 : Nat) ^ p : Int) ∣ ((10 : Nat) ^ q : Int) := by
    push_cast
    exact pow_dvd_pow (10 : Int) hpq
  simpa using this

/-- `round(0.0, p) = 0.0`. -/
theorem pyRound_zero (p : Nat) : pyRound 0 p = 0 := by
  apply pyRound_eq_self
  simp

/-- Every precision in the parser's rounding table is at most 6. -/
theorem roundingMap_prec_le_six {k : String} {p : Nat} (h : roundingMap.lookup k = some p) :
    p ≤ 6 := by
  have hm : (k, p) ∈ roundingMap := mem_of_lookup_eq_some h
  have hall : ∀ e ∈ roundingMap, e.2 ≤ 6 := by decide
  exact hall _ hm

/-! ### Structure of `parse` runs -/

/-- Every run of `parse` either rejects the line leaving the state unchanged,
or accepts a full-length line and returns the rounded record with the counter
incremented. -/
theorem parse_cases (cfg : Config) (ts : String) (st : ParserState) (raw : String) :
    TelemetryParser.parse cfg ts st raw = (none, st) ∨
    (TelemetryParser.parse cfg ts st raw =
        (some (applyRounding (buildTelemetry ts st.packet_count (fieldsOf raw))),
         ⟨st.packet_count + 1⟩) ∧
      (fieldsOf raw).length = DATA_LABELS.length) := by
  unfold TelemetryParser.parse
  split
  · exact Or.inl rfl
  · split
    · exact Or.inl rfl
    · split
      · exact Or.inl rfl
      · rename_i h1 h2 h3
        refine Or.inr ⟨rfl, ?_⟩
        omega

/-- Inversion of an accepting run of `parse`. -/
theorem parse_some_inv {cfg : Config} {ts : String} {st : ParserState} {raw : String}
    {t : List (String × Value)} (h : (TelemetryParser.parse cfg ts st raw).1 = some t) :
    t = applyRounding (buildTelemetry ts st.packet_count (fieldsOf raw)) ∧
    (TelemetryParser.parse cfg ts st raw).2 = ⟨st.packet_count + 1⟩ ∧
    (fieldsOf raw).length = DATA_LABELS.length := by
  rcases parse_cases cfg ts st raw with hc | ⟨hc, hlen⟩
  · rw [hc] at h
    exact absurd h (by simp)
  · rw [hc] at h ⊢
    simp only [Option.some.injEq] at h
    exact ⟨h.symm, rfl, hlen⟩

/-- A rejecting run of `parse` leaves the parser state unchanged. -/
theorem parse_none_inv {cfg : Config} {ts : String} {st : ParserState} {raw : String}
    (h : (TelemetryParser.parse cfg ts st raw).1 = none) :
    (TelemetryParser.parse cfg ts st raw).2 = st := by
  rcases parse_cases cfg ts st raw with hc | ⟨hc, -⟩
  · rw [hc]
  · rw [hc] at h
    exact absurd h (by simp)

/-- A full-length line is accepted whenever range checking is disabled or the
built record validates. -/
theorem parse_accept (cfg : Config) (ts : String) (st : ParserState) (raw : String)
    (hlen : (fieldsOf raw).length = DATA_LABELS.length)
    (hval : cfg.validation.enable_range_check = false ∨
      validateRanges cfg (applyRounding (buildTelemetry ts st.packet_count (fieldsOf raw))) =
        true) :
    TelemetryParser.parse cfg ts st raw =
      (some (applyRounding (buildTelemetry ts st.packet_count (fieldsOf raw))),
       ⟨st.packet_count + 1⟩) := by
  have hne : (trimChars raw.toList).isEmpty = false := by
    cases hcs : trimChars raw.toList with
    | nil =>
      rw [fieldsOf, hcs] at hlen
      simp [splitComma, splitAux, DATA_LABELS] at hlen
    | cons c cs => rfl
  have hcond : (cfg.validation.enable_range_check &&
      !(validateRanges cfg (applyRounding
        (buildTelemetry ts st.packet_count (fieldsOf raw))))) = false := by
    rcases hval with h | h <;> simp [h]
  unfold TelemetryParser.parse
  rw [hne]
  simp only [Bool.false_eq_true, if_false, hlen, ne_eq, not_true_eq_false, hcond]

/-! ### Positional decoding -/

/-- With range checking disabled, a full-length line is accepted and every
channel holds the decoded-and-rounded value of its positional token. -/
theorem parse_positional (cfg : Config) (ts : String) (st : ParserState) (raw : String)
    (hrc : cfg.validation.enable_range_check = false)
    (hlen : (fieldsOf raw).length = DATA_LABELS.length) :
    ∃ t, (TelemetryParser.parse cfg ts st raw).1 = some t ∧
      ∀ i, i < DATA_LABELS.length →
        t.lookup (sanitizeLabel (DATA_LABELS.getD i "")) =
          some (channelValue (DATA_LABELS.getD i "") ((fieldsOf raw).getD i [])) := by
  refine ⟨applyRounding (buildTelemetry ts st.packet_count (fieldsOf raw)), ?_, ?_⟩
  · rw [parse_accept cfg ts st raw hlen (Or.inl hrc)]
  · intro i hi
    exact lookup_record_channel ts st.packet_count (fieldsOf raw) hlen i hi

/-- C1: For every input line with exactly 18 comma-separated fields (the
schema length), `TelemetryParser.parse` (range checking disabled, as in the
default configuration) produces a record in which all 18 channels decode to
their positionally-mapped values; in particular the line
`"5.2,-3.1,45.8,125.5,15.3,0.5,0.2,9.8,101325.0,22.5,1,8,37.123456,-122.345678,130.2,12.5,3.85,-95"`
parses to pitch=5.2, roll=-3.1, yaw=45.8, altitude=125.5, velocity=15.3,
accel_x=0.5, accel_y=0.2, accel_z=9.8, pressure_pa=101325.0, imu_temp_c=22.5,
gps_fix=1, gps_sats=8, gps_lat=37.123456, gps_lon=-122.345678, gps_alt_m=130.2,
gps_speed_m_s=12.5, vbat=3.85, rssi=-95. -/
theorem c1_parse_all_channels :
    (∀ (cfg : Config) (ts : String) (st : ParserState) (raw : String),
      cfg.validation.enable_range_check = false →
      (fieldsOf raw).length = DATA_LABELS.length →
      ∃ t, (TelemetryParser.parse cfg ts st raw).1 = some t ∧
        ∀ i, i < DATA_LABELS.length →
          t.lookup (sanitizeLabel (DATA_LABELS.getD i "")) =
            some (channelValue (DATA_LABELS.getD i "") ((fieldsOf raw).getD i []))) ∧
    (∀ (ts : String) (st : ParserState),
      ∃ t, (TelemetryParser.parse defaultConfig ts st testLine).1 = some t ∧
        t.lookup "pitch" = some (.vFloat (mkRat 26 5)) ∧
        t.lookup "roll" = some (.vFloat (mkRat (-31) 10)) ∧
        t.lookup "yaw" = some (.vFloat (mkRat 229 5)) ∧
        t.lookup "altitude" = some (.vFloat (mkRat 251 2)) ∧
        t.lookup "velocity" = some (.vFloat (mkRat 153 10)) ∧
        t.lookup "accel_x" = some (.vFloat (mkRat 1 2)) ∧
        t.lookup "accel_y" = some (.vFloat (mkRat 1 5)) ∧
        t.lookup "accel_z" = some (.vFloat (mkRat 49 5)) ∧
        t.lookup "pressure_pa" = some (.vFloat (mkRat 101325 1)) ∧
        t.lookup "imu_temp_c" = some (.vFloat (mkRat 45 2)) ∧
        t.lookup "gps_fix" = some (.vInt 1) ∧
        t.lookup "gps_sats" = some (.vInt 8) ∧
        t.lookup "gps_lat" = some (.vFloat (mkRat 37123456 1000000)) ∧
        t.lookup "gps_lon" = some (.vFloat (mkRat (-122345678) 1000000)) ∧
        t.lookup "gps_alt_m" = some (.vFloat (mkRat 651 5)) ∧
        t.lookup "gps_speed_m_s" = some (.vFloat (mkRat 25 2)) ∧
        t.lookup "vbat" = some (.vFloat (mkRat 77 20)) ∧
        t.lookup "rssi" = some (.vFloat (mkRat (-95) 1))) := by
  constructor
  · exact parse_positional
  · intro ts st
    refine ⟨applyRounding (buildTelemetry ts st.packet_count (fieldsOf testLine)),
      ?_, ?_, ?_, ?_, ?_, ?_, ?_, ?_, ?_, ?_, ?_, ?_, ?_, ?_, ?_, ?_, ?_, ?_, ?_⟩
    · rw [parse_accept defaultConfig ts st testLine (by decide) (Or.inl rfl)]
    all_goals rfl

/-- C1 witness: the theorem instantiated on the spec's end-to-end test line. -/
theorem c1_parse_all_channels_witness :
    (∃ t, (TelemetryParser.parse defaultConfig "2024-01-01T00:00:00" ⟨0⟩ testLine).1 = some t ∧
      ∀ i, i < DATA_LABELS.length →
        t.lookup (sanitizeLabel (DATA_LABELS.getD i "")) =
          some (channelValue (DATA_LABELS.getD i "") ((fieldsOf testLine).getD i []))) ∧
    (∃ t, (TelemetryParser.parse defaultConfig "2024-01-01T00:00:00" ⟨0⟩ testLine).1 = some t ∧
      t.lookup "pitch" = some (.vFloat (mkRat 26 5)) ∧
      t.lookup "roll" = some (.vFloat (mkRat (-31) 10)) ∧
      t.lookup "yaw" = some (.vFloat (mkRat 229 5)) ∧
      t.lookup "altitude" = some (.vFloat (mkRat 251 2)) ∧
      t.lookup "velocity" = some (.vFloat (mkRat 153 10)) ∧
      t.lookup "accel_x" = some (.vFloat (mkRat 1 2)) ∧
      t.lookup "accel_y" = some (.vFloat (mkRat 1 5)) ∧
      t.lookup "accel_z" = some (.vFloat (mkRat 49 5)) ∧
      t.lookup "pressure_pa" = some (.vFloat (mkRat 101325 1)) ∧
      t.lookup "imu_temp_c" = some (.vFloat (mkRat 45 2)) ∧
      t.lookup "gps_fix" = some (.vInt 1) ∧
      t.lookup "gps_sats" = some (.vInt 8) ∧
      t.lookup "gps_lat" = some (.vFloat (mkRat 37123456 1000000)) ∧
      t.lookup "gps_lon" = some (.vFloat (mkRat (-122345678) 1000000)) ∧
      t.lookup "gps_alt_m" = some (.vFloat (mkRat 651 5)) ∧
      t.lookup "gps_speed_m_s" = some (.vFloat (mkRat 25 2)) ∧
      t.lookup "vbat" = some (.vFloat (mkRat 77 20)) ∧
      t.lookup "rssi" = some (.vFloat (mkRat (-95) 1))) :=
  ⟨c1_parse_all_channels.1 defaultConfig "2024-01-01T00:00:00" ⟨0⟩ testLine rfl (by decide),
   c1_parse_all_channels.2 "2024-01-01T00:00:00" ⟨0⟩⟩

/-- C2 counterexample: `testLine17` has exactly one field fewer than the
schema length, yet `parse` rejects it (returns no record), contradicting the
claim that the missing trailing channel is defaulted to 0.0. -/
theorem c2_seventeen_fields_rejected_cex :
    (fieldsOf testLine17).length + 1 = DATA_LABELS.length ∧
    (TelemetryParser.parse defaultConfig "2024-01-01T00:00:00" ⟨0⟩ testLine17).1 = none := by
  constructor
  · decide
  · decide

/-- C2 amended: a line with exactly one fewer comma-separated field than the
18-channel schema produces no record at all — `parse` requires exactly 18
fields and leaves the parser state unchanged on such input. -/
theorem c2_seventeen_fields_rejected (cfg : Config) (ts : String) (st : ParserState)
    (raw : String) (hlen : (fieldsOf raw).length + 1 = DATA_LABELS.length) :
    (TelemetryParser.parse cfg ts st raw).1 = none ∧
    (TelemetryParser.parse cfg ts st raw).2 = st := by
  rcases parse_cases cfg ts st raw with hc | ⟨hc, hlen18⟩
  · rw [hc]
    exact ⟨rfl, rfl⟩
  · omega

/-- C2 witness: the amended theorem applied to the concrete 17-field line. -/
theorem c2_seventeen_fields_rejected_witness :
    ((fieldsOf testLine17).length + 1 = DATA_LABELS.length) ∧
    ((TelemetryParser.parse defaultConfig "2024-01-01T00:00:00" ⟨0⟩ testLine17).1 = none ∧
     (TelemetryParser.parse defaultConfig "2024-01-01T00:00:00" ⟨0⟩ testLine17).2 = ⟨0⟩) :=
  ⟨by decide,
   c2_seventeen_fields_rejected defaultConfig "2024-01-01T00:00:00" ⟨0⟩ testLine17 (by decide)⟩

/-- C3 counterexample: the "waiting for GPS fix" line (2 comma-separated
fields) is rejected outright — no record with every channel 0.0 and a waiting
status is emitted, contradicting the claim. -/
theorem c3_waiting_line_rejected_cex :
    (TelemetryParser.parse defaultConfig "2024-01-01T00:00:00" ⟨0⟩ waitingLine).1 = none := by
  decide

/-- C3 amended: the parser has no "waiting for GPS fix" branch.  A line whose
comma-separated field count differs from the schema length — as any waiting
line with fewer than 18 fields does — is rejected, and no accepted record
ever carries a status entry (`sys_status` is absent from every record; the
caller substitutes `'active'`). -/
theorem c3_no_waiting_branch :
    (∀ (cfg : Config) (ts : String) (st : ParserState) (raw : String),
      (fieldsOf raw).length ≠ DATA_LABELS.length →
      (TelemetryParser.parse cfg ts st raw).1 = none) ∧
    (∀ (cfg : Config) (ts : String) (st : ParserState) (raw : String)
      (t : List (String × Value)),
      (TelemetryParser.parse cfg ts st raw).1 = some t →
      t.lookup "sys_status" = none) := by
  constructor
  · intro cfg ts st raw hne
    rcases parse_cases cfg ts st raw with hc | ⟨hc, hlen18⟩
    · rw [hc]
    · exact absurd hlen18 hne
  · intro cfg ts st raw t h
    obtain ⟨ht, -, -⟩ := parse_some_inv h
    subst ht
    have h1 : (("sys_status" : String) == "timestamp") = false := by decide
    have h2 : (("sys_status" : String) == "packet_count") = false := by decide
    have h3 : "sys_status" ∉ DATA_LABELS.map sanitizeLabel := by decide
    rw [lookup_applyRounding]
    simp only [buildTelemetry, List.lookup_cons, h1, h2,
      lookup_fields_none DATA_LABELS (fieldsOf raw) _ h3, Option.map_none']

/-- C3 witness: the amended theorem applied to the waiting line and to the
record parsed from the end-to-end test line. -/
theorem c3_no_waiting_branch_witness :
    ((fieldsOf waitingLine).length ≠ DATA_LABELS.length) ∧
    ((TelemetryParser.parse defaultConfig "2024-01-01T00:00:00" ⟨0⟩ waitingLine).1 = none) ∧
    ((TelemetryParser.parse defaultConfig "2024-01-01T00:00:00" ⟨0⟩ testLine).1 =
      some (applyRounding (buildTelemetry "2024-01-01T00:00:00" 0 (fieldsOf testLine)))) ∧
    ((applyRounding (buildTelemetry "2024-01-01T00:00:00" 0 (fieldsOf testLine))).lookup
      "sys_status" = none) :=
  ⟨by decide,
   c3_no_waiting_branch.1 defaultConfig "2024-01-01T00:00:00" ⟨0⟩ waitingLine (by decide),
   by decide,
   c3_no_waiting_branch.2 defaultConfig "2024-01-01T00:00:00" ⟨0⟩ testLine _ (by decide)⟩

/-- C4 counterexample: with an open file, the first `close()` succeeds, but a
second `close()` on the resulting state raises `ValueError` — it is not a
no-op as claimed. -/
theorem c4_close_twice_raises_cex :
    DataLogger.close ⟨some ⟨false⟩⟩ = .ok ⟨some ⟨true⟩⟩ ∧
    DataLogger.close ⟨some ⟨true⟩⟩ = .error "I/O operation on closed file." :=
  ⟨rfl, rfl⟩

/-- C4 amended: the first `close()` flushes and closes the file handle, but
because `self.csv_file` is never cleared, every subsequent `close()` calls
`flush()` on the closed handle and raises `ValueError` instead of being a
no-op. -/
theorem c4_close_not_idempotent (s : LoggerState) (f : FileHandle)
    (hf : s.csv_file = some f) (hopen : f.closed = false) :
    ∃ s1, DataLogger.close s = .ok s1 ∧ s1.csv_file = some ⟨true⟩ ∧
      DataLogger.close s1 = .error "I/O operation on closed file." := by
  cases f with
  | mk c =>
    subst hopen
    refine ⟨⟨some ⟨true⟩⟩, ?_, rfl, rfl⟩
    unfold DataLogger.close
    rw [hf]
    rfl

/-- C4 witness: the amended theorem at the concrete open-file state. -/
theorem c4_close_not_idempotent_witness :
    ((⟨some ⟨false⟩⟩ : LoggerState).csv_file = some ⟨false⟩ ∧
      (⟨false⟩ : FileHandle).closed = false) ∧
    (∃ s1, DataLogger.close ⟨some ⟨false⟩⟩ = .ok s1 ∧ s1.csv_file = some ⟨true⟩ ∧
      DataLogger.close s1 = .error "I/O operation on closed file.") :=
  ⟨⟨rfl, rfl⟩, c4_close_not_idempotent ⟨some ⟨false⟩⟩ ⟨false⟩ rfl rfl⟩

/-! ### Content-level degradation (claim C5) -/

/-- The value a channel normally gets from a successfully coerced token:
integer truncation for the two integer channels, the float otherwise, then
the rounding table. -/
def normalValue (label : String) (q : Rat) : Value :=
  roundValue (sanitizeLabel label)
    (if label = "GPS Fix" || label = "GPS Sats" then Value.vInt (ratTrunc q) else Value.vFloat q)

/-- A token that fails numeric coercion leaves its channel at `0.0`
(rounding does not disturb the zero default). -/
theorem channelValue_of_bad {label : String} {tok : List Char}
    (h : parseFloat? tok = none) : channelValue label tok = Value.vFloat 0 := by
  unfold channelValue parseField
  rw [h]
  unfold roundValue
  cases hl : roundingMap.lookup (sanitizeLabel label) with
  | none => rfl
  | some p => simp [pyRound_zero]

/-- A token that coerces successfully gives its channel the normal value. -/
theorem channelValue_of_good {label : String} {tok : List Char} {q : Rat}
    (h : parseFloat? tok = some q) : channelValue label tok = normalValue label q := by
  unfold channelValue parseField normalValue
  rw [h]

/-- C5: For every 18-field input line (range checking disabled) in which
exactly one token fails numeric coercion, `parse` produces a record in which
only that token's channel is 0.0, all other channels hold their normally
parsed values, and the record is emitted rather than rejected. -/
theorem c5_single_bad_field (cfg : Config) (ts : String) (st : ParserState) (raw : String)
    (j : Nat) (hj : j < DATA_LABELS.length)
    (hrc : cfg.validation.enable_range_check = false)
    (hlen : (fieldsOf raw).length = DATA_LABELS.length)
    (hbad : parseFloat? ((fieldsOf raw).getD j []) = none)
    (hgood : ∀ k, k < DATA_LABELS.length → k ≠ j →
      parseFloat? ((fieldsOf raw).getD k []) ≠ none) :
    ∃ t, (TelemetryParser.parse cfg ts st raw).1 = some t ∧
      t.lookup (sanitizeLabel (DATA_LABELS.getD j "")) = some (Value.vFloat 0) ∧
      ∀ k, k < DATA_LABELS.length → k ≠ j → ∀ q,
        parseFloat? ((fieldsOf raw).getD k []) = some q →
        t.lookup (sanitizeLabel (DATA_LABELS.getD k "")) =
          some (normalValue (DATA_LABELS.getD k "") q) := by
  obtain ⟨t, ht, hall⟩ := parse_positional cfg ts st raw hrc hlen
  refine ⟨t, ht, ?_, ?_⟩
  · rw [hall j hj, channelValue_of_bad hbad]
  · intro k hk hkj q hq
    rw [hall k hk, channelValue_of_good hq]

/-- C5 witness: the theorem applied to the test line with a bogus altitude
token at index 3. -/
theorem c5_single_bad_field_witness :
    (3 < DATA_LABELS.length ∧
     defaultConfig.validation.enable_range_check = false ∧
     (fieldsOf badFieldLine).length = DATA_LABELS.length ∧
     parseFloat? ((fieldsOf badFieldLine).getD 3 []) = none ∧
     (∀ k, k < DATA_LABELS.length → k ≠ 3 →
       parseFloat? ((fieldsOf badFieldLine).getD k []) ≠ none)) ∧
    (∃ t, (TelemetryParser.parse defaultConfig "2024-01-01T00:00:00" ⟨0⟩ badFieldLine).1 =
        some t ∧
      t.lookup (sanitizeLabel (DATA_LABELS.getD 3 "")) = some (Value.vFloat 0) ∧
      ∀ k, k < DATA_LABELS.length → k ≠ 3 → ∀ q,
        parseFloat? ((fieldsOf badFieldLine).getD k []) = some q →
        t.lookup (sanitizeLabel (DATA_LABELS.getD k "")) =
          some (normalValue (DATA_LABELS.getD k "") q)) :=
  ⟨⟨by decide, rfl, by decide, by decide, by decide⟩,
   c5_single_bad_field defaultConfig "2024-01-01T00:00:00" ⟨0⟩ badFieldLine 3 (by decide) rfl
     (by decide) (by decide) (by decide)⟩

/-- C6: When range checking is enabled and an otherwise-accepted (18-field)
record has a configured channel whose value lies outside its `[min, max]`
range, `parse` rejects the entire record — it returns no record and leaves
the state unchanged; no field-level substitution is performed. -/
theorem c6_range_reject (cfg : Config) (ts : String) (st : ParserState) (raw : String)
    (hcheck : cfg.validation.enable_range_check = true)
    (hlen : (fieldsOf raw).length = DATA_LABELS.length)
    (f : String) (lo hi : Rat) (hmem : (f, lo, hi) ∈ cfg.validation.ranges) (q : Rat)
    (hval : (lookupField (applyRounding (buildTelemetry ts st.packet_count (fieldsOf raw)))
        f).bind numOf = some q)
    (hout : ¬(lo ≤ q ∧ q ≤ hi)) :
    (TelemetryParser.parse cfg ts st raw).1 = none ∧
    (TelemetryParser.parse cfg ts st raw).2 = st := by
  have hro : rangeOk (applyRounding (buildTelemetry ts st.packet_count (fieldsOf raw)))
      (f, lo, hi) = false := by
    unfold rangeOk
    cases hlf : lookupField (applyRounding (buildTelemetry ts st.packet_count (fieldsOf raw)))
        f with
    | none =>
      rw [hlf] at hval
      exact absurd hval (by simp)
    | some v =>
      rw [hlf] at hval
      simp only [Option.some_bind] at hval
      simp only [boundsOk]
      rw [hval]
      simp only [numInBounds]
      have h2 : ¬(lo ≤ q) ∨ ¬(q ≤ hi) := by tauto
      rcases h2 with h | h <;> simp [h]
  have hvr : validateRanges cfg
      (applyRounding (buildTelemetry ts st.packet_count (fieldsOf raw))) = false := by
    unfold validateRanges
    exact List.all_eq_false.mpr ⟨(f, lo, hi), hmem, by simp [hro]⟩
  have hne : (trimChars raw.toList).isEmpty = false := by
    cases hcs : trimChars raw.toList with
    | nil =>
      rw [fieldsOf, hcs] at hlen
      simp [splitComma, splitAux, DATA_LABELS] at hlen
    | cons c cs => rfl
  unfold TelemetryParser.parse
  rw [if_neg (by simpa using hne), if_neg (not_ne_iff.mpr hlen),
    if_pos (by simp [hcheck, hvr])]
  exact ⟨rfl, rfl⟩

/-- The range-checking configuration of the source file's own example block:
`Altitude` bounded by `[-100, 50000]`. -/
def altitudeRangeConfig : Config :=
  ⟨⟨true, [("Altitude", mkRat (-100) 1, mkRat 50000 1)]⟩⟩

/-- C6 witness: the theorem applied to `altitudeRangeConfig` and a line
carrying altitude 60000. -/
theorem c6_range_reject_witness :
    (altitudeRangeConfig.validation.enable_range_check = true ∧
     (fieldsOf highAltLine).length = DATA_LABELS.length ∧
     ("Altitude", mkRat (-100) 1, mkRat 50000 1) ∈ altitudeRangeConfig.validation.ranges ∧
     (lookupField (applyRounding (buildTelemetry "2024-01-01T00:00:00" 0
         (fieldsOf highAltLine))) "Altitude").bind numOf = some (mkRat 60000 1) ∧
     ¬(mkRat (-100) 1 ≤ mkRat 60000 1 ∧ mkRat 60000 1 ≤ mkRat 50000 1)) ∧
    ((TelemetryParser.parse altitudeRangeConfig "2024-01-01T00:00:00" ⟨0⟩ highAltLine).1 =
        none ∧
     (TelemetryParser.parse altitudeRangeConfig "2024-01-01T00:00:00" ⟨0⟩ highAltLine).2 =
        ⟨0⟩) :=
  ⟨⟨rfl, by decide, by decide, by decide, by decide⟩,
   c6_range_reject altitudeRangeConfig "2024-01-01T00:00:00" ⟨0⟩ highAltLine rfl (by decide)
     "Altitude" (mkRat (-100) 1) (mkRat 50000 1) (by decide) (mkRat 60000 1) (by decide)
     (by decide)⟩

/-- C7: The sequence counter `packet_count` increments exactly once per
accepted record — the emitted record carries the pre-increment value — and a
rejection (empty line, wrong field count, range failure) leaves the state
unchanged, so successive accepted records carry strictly increasing sequence
numbers. -/
theorem c7_sequence_counter (cfg : Config) (ts : String) (st : ParserState) (raw : String) :
    (∀ t, (TelemetryParser.parse cfg ts st raw).1 = some t →
      (TelemetryParser.parse cfg ts st raw).2.packet_count = st.packet_count + 1 ∧
      t.lookup "packet_count" = some (Value.vInt st.packet_count)) ∧
    ((TelemetryParser.parse cfg ts st raw).1 = none →
      (TelemetryParser.parse cfg ts st raw).2 = st) ∧
    (∀ (ts2 raw2 : String) t t2, (TelemetryParser.parse cfg ts st raw).1 = some t →
      (TelemetryParser.parse cfg ts2 (TelemetryParser.parse cfg ts st raw).2 raw2).1 =
        some t2 →
      ∃ n n2 : Int, t.lookup "packet_count" = some (Value.vInt n) ∧
        t2.lookup "packet_count" = some (Value.vInt n2) ∧ n < n2) := by
  refine ⟨?_, ?_, ?_⟩
  · intro t h
    obtain ⟨ht, h2, -⟩ := parse_some_inv h
    refine ⟨by rw [h2], ?_⟩
    rw [ht]
    exact lookup_record_packet_count ts st.packet_count (fieldsOf raw)
  · exact parse_none_inv
  · intro ts2 raw2 t t2 h1 h2
    obtain ⟨ht, hs, -⟩ := parse_some_inv h1
    rw [hs] at h2
    obtain ⟨ht2, -, -⟩ := parse_some_inv h2
    refine ⟨st.packet_count, (st.packet_count + 1 : Nat), ?_, ?_, ?_⟩
    · rw [ht]
      exact lookup_record_packet_count ts st.packet_count (fieldsOf raw)
    · rw [ht2]
      exact lookup_record_packet_count ts2 (st.packet_count + 1) (fieldsOf raw2)
    · exact_mod_cast Nat.lt_succ_self st.packet_count

/-- C7 witness: the theorem instantiated on an accepted line, an empty
(rejected) line, and two successive accepted lines. -/
theorem c7_sequence_counter_witness :
    ((TelemetryParser.parse defaultConfig "T" ⟨0⟩ testLine).2.packet_count = 0 + 1 ∧
     (applyRounding (buildTelemetry "T" 0 (fieldsOf testLine))).lookup "packet_count" =
       some (Value.vInt 0)) ∧
    ((TelemetryParser.parse defaultConfig "T" ⟨0⟩ "").1 = none →
     (TelemetryParser.parse defaultConfig "T" ⟨0⟩ "").2 = ⟨0⟩) ∧
    (∃ n n2 : Int,
      (applyRounding (buildTelemetry "T" 0 (fieldsOf testLine))).lookup "packet_count" =
        some (Value.vInt n) ∧
      (applyRounding (buildTelemetry "T2" 1 (fieldsOf testLine))).lookup "packet_count" =
        some (Value.vInt n2) ∧ n < n2) :=
  ⟨(c7_sequence_counter defaultConfig "T" ⟨0⟩ testLine).1 _ (by decide),
   (c7_sequence_counter defaultConfig "T" ⟨0⟩ "").2.1,
   (c7_sequence_counter defaultConfig "T" ⟨0⟩ testLine).2.2 "T2" testLine _ _ (by decide)
     (by decide)⟩

/-- C8: Every float value a `parse` record holds at a channel of the rounding
table is already at its configured per-field precision (`round(·, p)` fixes
it), and `DataLogger._format_floats` with the configured `float_precision` of
6 writes it unchanged — the logged value round-trips, and in particular a
logged latitude equals the parsed latitude rounded to 6 decimal places. -/
theorem c8_logged_roundtrip (cfg : Config) (ts : String) (st : ParserState) (raw : String)
    (t : List (String × Value)) (key : String) (p : Nat) (q : Rat)
    (h1 : (TelemetryParser.parse cfg ts st raw).1 = some t)
    (h2 : roundingMap.lookup key = some p)
    (h3 : t.lookup key = some (Value.vFloat q)) :
    (formatFloats 6 t).lookup key = some (Value.vFloat q) ∧ pyRound q p = q := by
  have hp6 : p ≤ 6 := roundingMap_prec_le_six h2
  obtain ⟨ht, -, -⟩ := parse_some_inv h1
  subst ht
  rw [lookup_applyRounding] at h3
  cases hb : (buildTelemetry ts st.packet_count (fieldsOf raw)).lookup key with
  | none =>
    rw [hb] at h3
    exact absurd h3 (by simp)
  | some v =>
    rw [hb] at h3
    simp only [Option.map_some'] at h3
    have h3' : roundValue key v = Value.vFloat q := Option.some.inj h3
    have hq : ∃ q0, q = pyRound q0 p := by
      unfold roundValue at h3'
      rw [h2] at h3'
      cases v with
      | vFloat q0 =>
        refine ⟨q0, ?_⟩
        have e : Value.vFloat (pyRound q0 p) = Value.vFloat q := h3'
        injection e with e2
        exact e2.symm
      | vInt n => exact absurd (show Value.vInt n = Value.vFloat q from h3') (by simp)
      | vStr s => exact absurd (show Value.vStr s = Value.vFloat q from h3') (by simp)
    obtain ⟨q0, rfl⟩ := hq
    constructor
    · rw [lookup_formatFloats, lookup_applyRounding, hb]
      simp only [Option.map_some']
      rw [h3']
      show some (formatValue 6 (Value.vFloat (pyRound q0 p))) =
        some (Value.vFloat (pyRound q0 p))
      simp only [formatValue]
      rw [pyRound_pyRound hp6]
    · exact pyRound_pyRound (le_refl p)

/-- C8 witness: the theorem applied to the latitude channel of the record
parsed from the end-to-end test line. -/
theorem c8_logged_roundtrip_witness :
    ((TelemetryParser.parse defaultConfig "T" ⟨0⟩ testLine).1 =
        some (applyRounding (buildTelemetry "T" 0 (fieldsOf testLine))) ∧
     roundingMap.lookup "gps_lat" = some 6 ∧
     (applyRounding (buildTelemetry "T" 0 (fieldsOf testLine))).lookup "gps_lat" =
        some (Value.vFloat (mkRat 37123456 1000000))) ∧
    ((formatFloats 6 (applyRounding (buildTelemetry "T" 0 (fieldsOf testLine)))).lookup
        "gps_lat" = some (Value.vFloat (mkRat 37123456 1000000)) ∧
     pyRound (mkRat 37123456 1000000) 6 = mkRat 37123456 1000000) :=
  ⟨⟨by decide, by decide, by decide⟩,
   c8_logged_roundtrip defaultConfig "T" ⟨0⟩ testLine _ "gps_lat" 6 _ (by decide) (by decide)
     (by decide)⟩

/-! ### Fan-out registry lemmas -/

/-- Membership after removing the dead subscribers: with a duplicate-free
registry, exactly the members not in the dead list survive. -/
theorem mem_pruneDead {Client : Type} [DecidableEq Client] (dead : List Client) :
    ∀ (registry : List Client), registry.Nodup →
      ∀ x, x ∈ pruneDead registry dead ↔ x ∈ registry ∧ x ∉ dead := by
  induction dead with
  | nil =>
    intro registry _ x
    simp [pruneDead]
  | cons c cs ih =>
    intro registry hnd x
    have hstep : pruneDead registry (c :: cs) = pruneDead (registry.erase c) cs := rfl
    rw [hstep, ih (registry.erase c) (hnd.erase c) x]
    constructor
    · rintro ⟨hx, hcs⟩
      have hx' := (List.Nodup.mem_erase_iff hnd).mp hx
      exact ⟨hx'.2, by simp [hx'.1, hcs]⟩
    · rintro ⟨hx, hccs⟩
      simp only [List.mem_cons, not_or] at hccs
      exact ⟨(List.Nodup.mem_erase_iff hnd).mpr ⟨hccs.1, hx⟩, hccs.2⟩

/-- `pruneDead` preserves freedom from duplicates. -/
theorem nodup_pruneDead {Client : Type} [DecidableEq Client] (dead : List Client) :
    ∀ (registry : List Client), registry.Nodup → (pruneDead registry dead).Nodup := by
  induction dead with
  | nil => intro registry hnd; exact hnd
  | cons c cs ih => intro registry hnd; exact ih (registry.erase c) (hnd.erase c)

/-- The registry after one broadcast step holds exactly the previous members
whose send succeeded. -/
theorem mem_broadcastStep_registry {Client : Type} [DecidableEq Client]
    (registry : List Client) (hnd : registry.Nodup) (sendOk : Client → String → Bool)
    (payload : String) (x : Client) :
    x ∈ (broadcastStep registry sendOk payload).2 ↔
      x ∈ registry ∧ sendOk x payload = true := by
  unfold broadcastStep deadAfter
  rw [mem_pruneDead _ registry hnd x]
  constructor
  · rintro ⟨hx, hdead⟩
    refine ⟨hx, ?_⟩
    by_contra hfx
    exact hdead (List.mem_filter.mpr ⟨hx, by simp [Bool.not_eq_true] at hfx ⊢; exact hfx⟩)
  · rintro ⟨hx, hsx⟩
    refine ⟨hx, fun hdead => ?_⟩
    have := (List.mem_filter.mp hdead).2
    simp [hsx] at this

/-- C9: If sending to a registered subscriber fails, that subscriber is
removed from the registry by the broadcast step and receives nothing on the
next step, while every other registered subscriber whose sends succeed
receives the current envelope, stays registered, and receives subsequent
envelopes. -/
theorem c9_subscriber_prune (Client : Type) [DecidableEq Client] (registry : List Client)
    (hnd : registry.Nodup) (sendOk : Client → String → Bool) (p1 p2 : String) (c : Client)
    (hc : c ∈ registry) (hfail : sendOk c p1 = false) :
    c ∉ (broadcastStep registry sendOk p1).2 ∧
    c ∉ (broadcastStep (broadcastStep registry sendOk p1).2 sendOk p2).1 ∧
    ∀ d, d ∈ registry → sendOk d p1 = true →
      d ∈ (broadcastStep registry sendOk p1).1 ∧
      d ∈ (broadcastStep registry sendOk p1).2 ∧
      (sendOk d p2 = true →
        d ∈ (broadcastStep (broadcastStep registry sendOk p1).2 sendOk p2).1) := by
  have hno : c ∉ (broadcastStep registry sendOk p1).2 := by
    intro h
    have := (mem_broadcastStep_registry registry hnd sendOk p1 c).mp h
    rw [hfail] at this
    exact absurd this.2 (by simp)
  refine ⟨hno, ?_, ?_⟩
  · intro h
    exact hno (List.mem_filter.mp h).1
  · intro d hd hsd
    have hreg : d ∈ (broadcastStep registry sendOk p1).2 :=
      (mem_broadcastStep_registry registry hnd sendOk p1 d).mpr ⟨hd, hsd⟩
    refine ⟨List.mem_filter.mpr ⟨hd, hsd⟩, hreg, fun hsd2 => ?_⟩
    exact List.mem_filter.mpr ⟨hreg, hsd2⟩

/-- C9 witness: three subscribers `[0, 1, 2]`; subscriber 1's send fails on
the first envelope, the others keep succeeding. -/
theorem c9_subscriber_prune_witness :
    (([0, 1, 2] : List Nat).Nodup ∧ (1 : Nat) ∈ ([0, 1, 2] : List Nat) ∧
      (fun (c : Nat) (p : String) => !(c == 1 && p == "a")) 1 "a" = false) ∧
    ((1 : Nat) ∉ (broadcastStep [0, 1, 2]
        (fun (c : Nat) (p : String) => !(c == 1 && p == "a")) "a").2 ∧
     (1 : Nat) ∉ (broadcastStep (broadcastStep [0, 1, 2]
        (fun (c : Nat) (p : String) => !(c == 1 && p == "a")) "a").2
        (fun (c : Nat) (p : String) => !(c == 1 && p == "a")) "b").1 ∧
     ∀ d, d ∈ ([0, 1, 2] : List Nat) →
       (fun (c : Nat) (p : String) => !(c == 1 && p == "a")) d "a" = true →
       d ∈ (broadcastStep [0, 1, 2]
          (fun (c : Nat) (p : String) => !(c == 1 && p == "a")) "a").1 ∧
       d ∈ (broadcastStep [0, 1, 2]
          (fun (c : Nat) (p : String) => !(c == 1 && p == "a")) "a").2 ∧
       ((fun (c : Nat) (p : String) => !(c == 1 && p == "a")) d "b" = true →
         d ∈ (broadcastStep (broadcastStep [0, 1, 2]
            (fun (c : Nat) (p : String) => !(c == 1 && p == "a")) "a").2
            (fun (c : Nat) (p : String) => !(c == 1 && p == "a")) "b").1)) :=
  ⟨⟨by decide, by decide, by decide⟩,
   c9_subscriber_prune Nat [0, 1, 2] (by decide)
     (fun (c : Nat) (p : String) => !(c == 1 && p == "a")) "a" "b" 1 (by decide) (by decide)⟩

/-- C10: In `slugsight_gds.py`'s ingestion loop a record is written to the
logger only when its `packet_count` is greater than zero; the parser stamps
the first accepted record of a run (fresh state, counter 0) with
`packet_count = 0`, so that first record is never written, while records
accepted with a positive counter are. -/
theorem c10_first_record_skipped :
    (∀ (cfg : Config) (ts raw : String) (t : List (String × Value)),
      (TelemetryParser.parse cfg ts ⟨0⟩ raw).1 = some t →
      t.lookup "packet_count" = some (Value.vInt 0) ∧ shouldLog t = false) ∧
    (∀ (cfg : Config) (ts raw : String) (st : ParserState) (t : List (String × Value)),
      0 < st.packet_count →
      (TelemetryParser.parse cfg ts st raw).1 = some t → shouldLog t = true) := by
  constructor
  · intro cfg ts raw t h
    obtain ⟨ht, -, -⟩ := parse_some_inv h
    have hl : t.lookup "packet_count" = some (Value.vInt 0) := by
      rw [ht]
      exact lookup_record_packet_count ts 0 (fieldsOf raw)
    refine ⟨hl, ?_⟩
    unfold shouldLog
    rw [hl]
    rfl
  · intro cfg ts raw st t hpos h
    obtain ⟨ht, -, -⟩ := parse_some_inv h
    have hl : t.lookup "packet_count" = some (Value.vInt st.packet_count) := by
      rw [ht]
      exact lookup_record_packet_count ts st.packet_count (fieldsOf raw)
    unfold shouldLog
    rw [hl]
    simpa using hpos

/-- C10 witness: the theorem applied to the test line from a fresh parser
state and from a state with one record already accepted. -/
theorem c10_first_record_skipped_witness :
    ((applyRounding (buildTelemetry "T" 0 (fieldsOf testLine))).lookup "packet_count" =
        some (Value.vInt 0) ∧
      shouldLog (applyRounding (buildTelemetry "T" 0 (fieldsOf testLine))) = false) ∧
    (0 < (⟨1⟩ : ParserState).packet_count ∧
      shouldLog (applyRounding (buildTelemetry "T" 1 (fieldsOf testLine))) = true) :=
  ⟨c10_first_record_skipped.1 defaultConfig "T" testLine _ (by decide),
   ⟨by decide,
    c10_first_record_skipped.2 defaultConfig "T" testLine ⟨1⟩ _ (by decide) (by decide)⟩⟩
